import Mathlib

/-!
Verification of the Breeze viewer deep-link session router
(`apps/viewer/src-tauri/src/lib.rs`).

The Rust code keeps three pieces of shared state:
  * `DeepLinkState`  : HashMap window-label → pending deep-link URL
  * `SessionMap`     : HashMap session-id → owning window label
  * `WindowCounter`  : monotonic u32 used to mint fresh window labels

We embed the maps as association lists with unique keys (the image of a
HashMap), the router as a pure state transformer that also returns the
ordered list of observable side effects it performs, and the host
environment (which windows exist, whether window creation succeeds) as a
record of oracles.
-/

namespace Breeze

/-- Association-list image of the Rust `HashMap<String, String>`. -/
abbrev SMap := List (String × String)

/-- `HashMap::get` : first binding of the key, if any. -/
def mapGet (m : SMap) (k : String) : Option String :=
  (m.find? (fun p => p.1 == k)).map (fun p => p.2)

/-- `HashMap::insert` : overwrite any existing binding of the key. -/
def mapInsert (m : SMap) (k v : String) : SMap :=
  (k, v) :: m.filter (fun p => p.1 != k)

/-- `HashMap::remove` : drop the binding of the key. -/
def mapRemove (m : SMap) (k : String) : SMap :=
  m.filter (fun p => p.1 != k)

/-- `map.retain(|_, l| l != lbl)` : keep only entries whose value differs. -/
def mapRetainValNe (m : SMap) (lbl : String) : SMap :=
  m.filter (fun p => p.2 != lbl)

/-- `map.values().any(|l| l == lbl)`. -/
def mapAnyValue (m : SMap) (lbl : String) : Bool :=
  m.any (fun p => p.2 == lbl)

/-- The query key scanned for by the link parser (`strip_prefix("session=")`). -/
def sessionKey : List Char := "session=".toList

/-- The `&`-delimited pairs of the query string: everything after the first
`?` of the URL, split at `&` (Rust `url[query_start + 1..].split('&')`). -/
def queryPairs (url : String) : List (List Char) :=
  ((url.toList.dropWhile (fun c => c != '?')).drop 1).splitOn '&'

/-- The `for pair in query.split('&')` loop body of `extract_session_id`:
on the first pair carrying the `session=` key, take the value up to the
next `&` (or end), returning it when non-empty and `None` when empty;
otherwise keep scanning. -/
def scanPairs : List (List Char) → Option String
  | [] => none
  | p :: ps =>
    if sessionKey.isPrefixOf p then
      let value := p.drop sessionKey.length
      let stop := value.takeWhile (fun c => c != '&')
      if stop = [] then none else some (String.mk stop)
    else scanPairs ps

/-- `extract_session_id(url)` : locate the first `?`; if absent return
`None`; otherwise scan the `&`-delimited pairs of the query for the
`session=` key as in `scanPairs`. -/
def extract_session_id (url : String) : Option String :=
  if url.toList.contains '?' then scanPairs (queryPairs url) else none

/-- The three shared routing maps of the viewer process. `windowCounter`
holds the value of the `u32` `WindowCounter`: every increment performed by
the router is taken modulo `2^32` (the release-build wrap of `*c += 1`),
so all values written by the operations stay below `2^32`. -/
structure RouterState where
  pendingLink : SMap
  sessionMap : SMap
  windowCounter : Nat
deriving DecidableEq

/-- Host oracles: which window labels currently resolve to a live webview
window (`app.get_webview_window`), and whether `WebviewWindowBuilder::build`
succeeds for a given label. -/
structure Env where
  windowExists : String → Bool
  buildSucceeds : String → Bool

/-- Observable side effects of the router, in program order. -/
inductive Effect where
  | setPending (label url : String)
  | removePending (label : String)
  | attemptCreate (label : String)
  | focusWindow (label : String)
  | emitEvent (label event url : String)
  | scheduleEmit (label event url : String) (delayMs : Nat)
deriving DecidableEq

/-- `format!("session-{}", n)`. -/
def sessionLabel (n : Nat) : String :=
  "session-" ++ Nat.repr n

/-- `2^32`, the modulus of the `u32` `WindowCounter`: in a release build
the increment `*c += 1` wraps at this bound. -/
def u32Size : Nat := 4294967296

/-- `create_session_window(app, url)` : bump the counter, mint the label,
store the pending link BEFORE attempting window creation; on success
spawn the two delayed re-emissions (500 ms and 1500 ms); on failure remove
the orphaned pending entry and fall back to the main window (store the
URL for `main` and emit to `main` — note: the fallback does not focus).
The counter is a `u32` incremented with `*c += 1`, which wraps at
`u32::MAX` in release builds: the increment is taken modulo `u32Size`. -/
def create_session_window (env : Env) (s : RouterState) (url : String) :
    RouterState × List Effect :=
  let n := (s.windowCounter + 1) % u32Size
  let label := sessionLabel n
  let s1 : RouterState :=
    { s with windowCounter := n,
             pendingLink := mapInsert s.pendingLink label url }
  if env.buildSucceeds label then
    (s1, [Effect.setPending label url,
          Effect.attemptCreate label,
          Effect.scheduleEmit label "deep-link-received" url 500,
          Effect.scheduleEmit label "deep-link-received" url 1500])
  else
    let s2 : RouterState :=
      { s1 with pendingLink :=
          mapInsert (mapRemove s1.pendingLink label) "main" url }
    (s2, [Effect.setPending label url,
          Effect.attemptCreate label,
          Effect.removePending label,
          Effect.setPending "main" url,
          Effect.emitEvent "main" "deep-link-received" url])

/-- The tail of `route_deep_link` after the dedup check: if no session is
owned by the `main` window, deliver to `main` (store pending, emit, focus
when the window exists); otherwise open a new session window. -/
def route_after_dedup (env : Env) (s : RouterState) (url : String) :
    RouterState × List Effect :=
  let mainActive := mapAnyValue s.sessionMap "main"
  if !mainActive then
    let s1 : RouterState :=
      { s with pendingLink := mapInsert s.pendingLink "main" url }
    (s1, [Effect.setPending "main" url,
          Effect.emitEvent "main" "deep-link-received" url] ++
         (if env.windowExists "main" then [Effect.focusWindow "main"] else []))
  else
    create_session_window env s url

/-- `route_deep_link(app, url)` : if the URL carries a session id already
present in the session map, focus the owning window when it still exists
and return (the `return` fires whether or not that window exists);
otherwise fall through to `route_after_dedup`. -/
def route_deep_link (env : Env) (s : RouterState) (url : String) :
    RouterState × List Effect :=
  match extract_session_id url with
  | some sessionId =>
    match mapGet s.sessionMap sessionId with
    | some existingLabel =>
      (s, if env.windowExists existingLabel
          then [Effect.focusWindow existingLabel] else [])
    | none => route_after_dedup env s url
  | none => route_after_dedup env s url

/-- `get_pending_deep_link` command: read the calling window's pending URL
without consuming it. -/
def get_pending_deep_link (s : RouterState) (label : String) :
    RouterState × Option String :=
  (s, mapGet s.pendingLink label)

/-- `clear_pending_deep_link` command. -/
def clear_pending_deep_link (s : RouterState) (label : String) : RouterState :=
  { s with pendingLink := mapRemove s.pendingLink label }

/-- `register_session` command: `SessionMap[session_id] = label`. -/
def register_session (s : RouterState) (label sessionId : String) :
    RouterState :=
  { s with sessionMap := mapInsert s.sessionMap sessionId label }

/-- `unregister_session` command: drop every session owned by the window. -/
def unregister_session (s : RouterState) (label : String) : RouterState :=
  { s with sessionMap := mapRetainValNe s.sessionMap label }

/-- The `WindowEvent::Destroyed` handler in `run`: drop every session owned
by the destroyed window and its pending link. -/
def on_window_destroyed (s : RouterState) (label : String) : RouterState :=
  { s with sessionMap := mapRetainValNe s.sessionMap label,
           pendingLink := mapRemove s.pendingLink label }

/-- State managed in `setup`: empty session map, counter 0, and the pending
map holding the initial deep link under `main` when one was present. -/
def initState (initialUrl : Option String) : RouterState :=
  { pendingLink := match initialUrl with
      | some u => [("main", u)]
      | none => []
    sessionMap := []
    windowCounter := 0 }

/-- One public operation on the router state. -/
inductive Op where
  | routeLink (env : Env) (url : String)
  | registerSession (label sessionId : String)
  | unregisterSession (label : String)
  | getPending (label : String)
  | clearPending (label : String)
  | windowDestroyed (label : String)

/-- Apply one operation, returning the new state and its effect trace. -/
def applyOpFx (s : RouterState) : Op → RouterState × List Effect
  | Op.routeLink env url => route_deep_link env s url
  | Op.registerSession label sessionId => (register_session s label sessionId, [])
  | Op.unregisterSession label => (unregister_session s label, [])
  | Op.getPending label => ((get_pending_deep_link s label).1, [])
  | Op.clearPending label => (clear_pending_deep_link s label, [])
  | Op.windowDestroyed label => (on_window_destroyed s label, [])

/-- Apply one operation, state only. -/
def applyOp (s : RouterState) (op : Op) : RouterState :=
  (applyOpFx s op).1

/-- Run a sequence of operations. -/
def runOps (s : RouterState) : List Op → RouterState
  | [] => s
  | op :: ops => runOps (applyOp s op) ops

/-- Concatenated effect trace of a sequence of operations. -/
def runFx (s : RouterState) : List Op → List Effect
  | [] => []
  | op :: ops => (applyOpFx s op).2 ++ runFx (applyOp s op) ops

/-- Labels for which a window creation was attempted, in trace order. -/
def allocatedLabels (fx : List Effect) : List String :=
  fx.filterMap fun e =>
    match e with
    | Effect.attemptCreate l => some l
    | _ => none

/-- Numeric value of a decimal digit character (inverse of `Nat.digitChar`
on digits 0–9). -/
def digitVal (c : Char) : Nat :=
  if c = '0' then 0 else
  if c = '1' then 1 else
  if c = '2' then 2 else
  if c = '3' then 3 else
  if c = '4' then 4 else
  if c = '5' then 5 else
  if c = '6' then 6 else
  if c = '7' then 7 else
  if c = '8' then 8 else
  if c = '9' then 9 else 0

/-- Value of a most-significant-first decimal digit string. -/
def digitsVal (ds : List Char) : Nat :=
  ds.foldl (fun a c => 10 * a + digitVal c) 0

/-- Restatement of the specified contract of `extract_session_id` (spec
§4.1 / claim C7): `None` exactly when the URL has no `?`, when no
`&`-delimited pair of the query carries the `session=` key, or when the
value of the first such pair is empty; otherwise the raw, non-URL-decoded
value running to the next `&` or the end of the string. -/
def extract_session_id_spec (url : String) : Option String :=
  if url.toList.contains '?' then
    match (queryPairs url).find? (fun p => sessionKey.isPrefixOf p) with
    | none => none
    | some p =>
      let v := (p.drop sessionKey.length).takeWhile (fun c => c != '&')
      if v = [] then none else some (String.mk v)
  else none

/-- Recognizer for immediate notification effects. -/
def isEmitEffect : Effect → Bool
  | Effect.emitEvent _ _ _ => true
  | _ => false

/-- Recognizer for delayed re-emission effects (the Delivery Retrier). -/
def isScheduleEffect : Effect → Bool
  | Effect.scheduleEmit _ _ _ _ => true
  | _ => false

/-- Recognizer for window-focus effects. -/
def isFocusEffect : Effect → Bool
  | Effect.focusWindow _ => true
  | _ => false

/-- Recognizer for window-creation attempts. -/
def isCreateEffect : Effect → Bool
  | Effect.attemptCreate _ => true
  | _ => false

/-- Environment in which every window exists and creation succeeds. -/
def envAllTrue : Env :=
  { windowExists := fun _ => true, buildSucceeds := fun _ => true }

/-- Environment in which no window exists (creation still succeeds). -/
def envNoWindows : Env :=
  { windowExists := fun _ => false, buildSucceeds := fun _ => true }

/-- Environment in which windows exist but window creation always fails. -/
def envBuildFails : Env :=
  { windowExists := fun _ => true, buildSucceeds := fun _ => false }

/-- A state in which window `session-1` owns session `abc`. -/
def stFocusWit : RouterState :=
  { pendingLink := [], sessionMap := [("abc", "session-1")], windowCounter := 1 }

/-- A state in which the main window owns session `abc`. -/
def stBusyWit : RouterState :=
  { pendingLink := [("main", "u0")], sessionMap := [("abc", "main")],
    windowCounter := 0 }

/-- A state with two owned sessions and two pending links. -/
def stC6Wit : RouterState :=
  { pendingLink := [("w1", "u1"), ("main", "u0")],
    sessionMap := [("s1", "w1"), ("s2", "main")], windowCounter := 3 }

/-- A busy state whose counter sits one allocation below `u32::MAX`. -/
def stWrapWit : RouterState :=
  { pendingLink := [], sessionMap := [("abc", "main")],
    windowCounter := 4294967294 }

/-- A busy state whose counter sits at `u32::MAX`, so that the next
allocation wraps to 0. -/
def stWrapFull : RouterState :=
  { pendingLink := [], sessionMap := [("abc", "main")],
    windowCounter := 4294967295 }

/-- Two deep-link deliveries for brand-new sessions while main is busy. -/
def wrapOps : List Op :=
  [Op.routeLink envAllTrue "breeze://c?session=d1",
   Op.routeLink envAllTrue "breeze://c?session=d2"]

/-- Register a session for main, then deliver a link for a new session. -/
def c9WitOps : List Op :=
  [Op.registerSession "main" "abc",
   Op.routeLink envAllTrue "breeze://c?session=def"]

/-! Lookup lemmas for the association-list maps. -/

lemma mapGet_cons (p : String × String) (m : SMap) (k : String) :
    mapGet (p :: m) k = if p.1 = k then some p.2 else mapGet m k := by
  by_cases h : p.1 = k
  · simp [mapGet, List.find?_cons_of_pos, h]
  · simp only [mapGet, if_neg h]
    rw [List.find?_cons_of_neg]
    simp [h]

lemma mapGet_insert_self (m : SMap) (k v : String) :
    mapGet (mapInsert m k v) k = some v := by
  simp [mapInsert, mapGet_cons]

lemma mapGet_filter_eq_none (m : SMap) (q : String × String → Bool)
    (k : String) (h : mapGet m k = none) : mapGet (m.filter q) k = none := by
  induction m with
  | nil => rfl
  | cons p m ih =>
    rw [mapGet_cons] at h
    by_cases hk : p.1 = k
    · rw [if_pos hk] at h; exact absurd h (by simp)
    · rw [if_neg hk] at h
      rw [List.filter_cons]
      by_cases hq : q p
      · rw [if_pos hq, mapGet_cons, if_neg hk]; exact ih h
      · rw [if_neg hq]; exact ih h

lemma mapGet_insert_ne (m : SMap) (k v k' : String) (h : k' ≠ k) :
    mapGet (mapInsert m k v) k' = mapGet m k' := by
  rw [mapInsert, mapGet_cons, if_neg (fun he => h he.symm)]
  induction m with
  | nil => rfl
  | cons p m ih =>
    rw [List.filter_cons]
    by_cases hp : p.1 = k
    · have : (p.1 != k) = false := by simp [hp]
      rw [this, if_neg Bool.false_ne_true, ih, mapGet_cons, if_neg (hp ▸ fun he => h he.symm)]
    · have : (p.1 != k) = true := by simp [hp]
      rw [this, if_pos rfl, mapGet_cons, mapGet_cons, ih]

lemma mapGet_remove_self (m : SMap) (k : String) :
    mapGet (mapRemove m k) k = none := by
  induction m with
  | nil => rfl
  | cons p m ih =>
    rw [mapRemove, List.filter_cons]
    by_cases hp : p.1 = k
    · have : (p.1 != k) = false := by simp [hp]
      rw [this, if_neg Bool.false_ne_true]; exact ih
    · have : (p.1 != k) = true := by simp [hp]
      rw [this, if_pos rfl, mapGet_cons, if_neg hp]; exact ih

lemma mapGet_remove_ne (m : SMap) (k k' : String) (h : k' ≠ k) :
    mapGet (mapRemove m k) k' = mapGet m k' := by
  induction m with
  | nil => rfl
  | cons p m ih =>
    simp only [mapRemove, List.filter_cons] at ih ⊢
    by_cases hp : p.1 = k
    · have hb : (p.1 != k) = false := by simp [hp]
      rw [hb, if_neg Bool.false_ne_true, ih, mapGet_cons,
        if_neg (hp ▸ fun he => h he.symm)]
    · have hb : (p.1 != k) = true := by simp [hp]
      rw [hb, if_pos rfl, mapGet_cons, mapGet_cons, ih]

lemma mapGet_retainValNe_ne (m : SMap) (lbl k : String) :
    mapGet (mapRetainValNe m lbl) k ≠ some lbl := by
  intro h
  obtain ⟨p, hfind, hp2⟩ : ∃ p, (mapRetainValNe m lbl).find?
      (fun q => q.1 == k) = some p ∧ p.2 = lbl := by
    unfold mapGet at h
    cases hf : (mapRetainValNe m lbl).find? (fun q => q.1 == k) with
    | none => rw [hf] at h; exact absurd h (by simp)
    | some p => rw [hf] at h; exact ⟨p, rfl, by simpa using h⟩
  have hmem := List.mem_of_find?_eq_some hfind
  have := (List.mem_filter.mp hmem).2
  simp [hp2] at this

lemma mapGet_retainValNe_iff (m : SMap) (lbl k v : String) (hv : v ≠ lbl)
    (hN : (m.map Prod.fst).Nodup) :
    mapGet (mapRetainValNe m lbl) k = some v ↔ mapGet m k = some v := by
  induction m with
  | nil => simp [mapRetainValNe, mapGet]
  | cons p m ih =>
    rw [List.map_cons, List.nodup_cons] at hN
    rw [mapRetainValNe, List.filter_cons]
    by_cases hpv : p.2 = lbl
    · have : (p.2 != lbl) = false := by simp [hpv]
      rw [this, if_neg Bool.false_ne_true, mapGet_cons]
      by_cases hk : p.1 = k
      · rw [if_pos hk]
        have hnone : mapGet m k = none := by
          unfold mapGet
          cases hf : m.find? (fun q => q.1 == k) with
          | none => rfl
          | some q =>
            have hmem := List.mem_of_find?_eq_some hf
            have hq1 : q.1 = k := by simpa using List.find?_some hf
            have hpm : p.1 ∈ List.map Prod.fst m := by
              rw [hk, ← hq1]
              exact List.mem_map_of_mem Prod.fst hmem
            exact absurd hpm hN.1
        have hretain : mapGet (mapRetainValNe m lbl) k = none :=
          mapGet_filter_eq_none m _ k hnone
        rw [mapRetainValNe] at hretain
        rw [hretain]
        constructor
        · intro hc; exact absurd hc (by simp)
        · intro hc
          have : p.2 = v := by simpa using hc
          exact absurd (this ▸ hpv) (by simpa using hv)
      · rw [if_neg hk]; exact ih hN.2
    · have : (p.2 != lbl) = true := by simp [hpv]
      rw [this, if_pos rfl, mapGet_cons, mapGet_cons]
      by_cases hk : p.1 = k
      · rw [if_pos hk, if_pos hk]
      · rw [if_neg hk, if_neg hk]; exact ih hN.2

lemma keysNodup_filter (m : SMap) (q : String × String → Bool)
    (h : (m.map Prod.fst).Nodup) : ((m.filter q).map Prod.fst).Nodup := by
  have hs : (m.filter q).Sublist m := List.filter_sublist m
  exact (hs.map Prod.fst).nodup h

lemma keysNodup_insert (m : SMap) (k v : String)
    (h : (m.map Prod.fst).Nodup) : ((mapInsert m k v).map Prod.fst).Nodup := by
  rw [mapInsert, List.map_cons, List.nodup_cons]
  refine ⟨?_, keysNodup_filter m _ h⟩
  intro hk
  obtain ⟨p, hp, hpk⟩ := List.mem_map.mp hk
  have := (List.mem_filter.mp hp).2
  simp [hpk] at this

/-! Injectivity of `Nat.repr`, hence of `sessionLabel`: the decimal digit
string written by `Nat.toDigits` can be evaluated back to the number. -/

lemma digitVal_digitChar (d : Nat) (h : d < 10) :
    digitVal (Nat.digitChar d) = d := by
  interval_cases d <;> rfl

lemma toDigitsCore_append (fuel : Nat) :
    ∀ (n : Nat) (ds : List Char),
      Nat.toDigitsCore 10 fuel n ds = Nat.toDigitsCore 10 fuel n [] ++ ds := by
  induction fuel with
  | zero => intro n ds; simp [Nat.toDigitsCore]
  | succ f ih =>
    intro n ds
    simp only [Nat.toDigitsCore]
    by_cases h0 : n / 10 = 0
    · simp [h0]
    · rw [if_neg h0, if_neg h0, ih (n / 10) (Nat.digitChar (n % 10) :: ds),
        ih (n / 10) [Nat.digitChar (n % 10)], List.append_assoc]
      rfl

lemma digitsVal_append (xs : List Char) (c : Char) :
    digitsVal (xs ++ [c]) = 10 * digitsVal xs + digitVal c := by
  simp [digitsVal, List.foldl_append]

lemma digitsVal_toDigitsCore (fuel : Nat) :
    ∀ n : Nat, n < fuel → digitsVal (Nat.toDigitsCore 10 fuel n []) = n := by
  induction fuel with
  | zero => intro n h; exact absurd h (Nat.not_lt_zero n)
  | succ f ih =>
    intro n h
    simp only [Nat.toDigitsCore]
    by_cases h0 : n / 10 = 0
    · rw [if_pos h0]
      have hm : n % 10 = n := by omega
      simp [digitsVal, hm, digitVal_digitChar n (by omega)]
    · rw [if_neg h0, toDigitsCore_append, digitsVal_append,
        ih (n / 10) (by omega), digitVal_digitChar (n % 10) (by omega)]
      omega

lemma natRepr_injective : Function.Injective Nat.repr := by
  intro m n h
  have hdig : Nat.toDigits 10 m = Nat.toDigits 10 n := by
    have hd := congrArg String.data h
    simpa [Nat.repr, List.asString] using hd
  have hm : digitsVal (Nat.toDigits 10 m) = m :=
    digitsVal_toDigitsCore (m + 1) m (Nat.lt_succ_self m)
  have hn : digitsVal (Nat.toDigits 10 n) = n :=
    digitsVal_toDigitsCore (n + 1) n (Nat.lt_succ_self n)
  rw [← hm, ← hn, hdig]

lemma sessionLabel_injective : Function.Injective sessionLabel := by
  intro a b h
  have hd := congrArg String.data h
  simp only [sessionLabel, String.data_append] at hd
  exact natRepr_injective (congrArg String.mk (List.append_cancel_left hd))

lemma sessionLabel_ne_main (n : Nat) : sessionLabel n ≠ "main" := by
  intro h
  have hl := congrArg String.length h
  simp only [sessionLabel, String.length_append] at hl
  have h8 : ("session-" : String).length = 8 := by decide
  have h4 : ("main" : String).length = 4 := by decide
  omega

lemma scanPairs_eq_find (ps : List (List Char)) :
    scanPairs ps =
      match ps.find? (fun p => sessionKey.isPrefixOf p) with
      | none => none
      | some p =>
        let v := (p.drop sessionKey.length).takeWhile (fun c => c != '&')
        if v = [] then none else some (String.mk v) := by
  induction ps with
  | nil => rfl
  | cons p ps ih =>
    by_cases h : sessionKey.isPrefixOf p
    · rw [scanPairs, if_pos h, List.find?_cons_of_pos _ h]
    · rw [scanPairs, if_neg h, List.find?_cons_of_neg _ (by simp [h]), ih]

/-! Claim theorems. -/

/-- C1. For every URL whose extracted session id is already a key in
`SessionOwnership` mapped to a label whose window exists, `route(url)`
performs exactly one focus action on that window and returns, mutating
neither `PendingLink` nor `SessionOwnership`, creating no window, and
emitting no notification. -/
theorem C1_focus_existing_window (env : Env) (s : RouterState)
    (url sid lbl : String)
    (hex : extract_session_id url = some sid)
    (hown : mapGet s.sessionMap sid = some lbl)
    (hwin : env.windowExists lbl = true) :
    route_deep_link env s url = (s, [Effect.focusWindow lbl]) := by
  simp [route_deep_link, hex, hown, hwin]

/-- Witness for C1 at a concrete state, URL and environment. -/
theorem C1_focus_existing_window_witness :
    extract_session_id "breeze://c?session=abc" = some "abc" ∧
    mapGet stFocusWit.sessionMap "abc" = some "session-1" ∧
    envAllTrue.windowExists "session-1" = true ∧
    route_deep_link envAllTrue stFocusWit "breeze://c?session=abc" =
      (stFocusWit, [Effect.focusWindow "session-1"]) :=
  ⟨by decide, by decide, rfl,
   C1_focus_existing_window envAllTrue stFocusWit "breeze://c?session=abc"
     "abc" "session-1" (by decide) (by decide) rfl⟩

/-- C2 (counterexample). At a concrete idle state, `route(url)` does set
`PendingLink[main]`, emit once and focus, but schedules zero (not two)
delayed re-emissions: the claim including the two scheduled redundant
re-emissions is false on the code, whose idle branch spawns no timer. -/
theorem C2_counterexample :
    ¬ (mapGet (route_deep_link envAllTrue (initState none)
          "breeze://c?session=abc").1.pendingLink "main" =
            some "breeze://c?session=abc" ∧
       List.countP isEmitEffect (route_deep_link envAllTrue (initState none)
          "breeze://c?session=abc").2 = 1 ∧
       List.countP isScheduleEffect (route_deep_link envAllTrue (initState none)
          "breeze://c?session=abc").2 = 2 ∧
       List.countP isFocusEffect (route_deep_link envAllTrue (initState none)
          "breeze://c?session=abc").2 = 1) := by
  decide

/-- C2 (amended). For every URL delivered when no window owns any session,
`route(url)` sets `PendingLink[main]` to that URL, emits exactly one
notification to the primary window, schedules no delayed re-emission, and
focuses the primary window (when it exists). -/
theorem C2_idle_main_delivery (env : Env) (s : RouterState) (url : String)
    (hidle : s.sessionMap = [])
    (hmain : env.windowExists "main" = true) :
    route_deep_link env s url =
      ({ s with pendingLink := mapInsert s.pendingLink "main" url },
       [Effect.setPending "main" url,
        Effect.emitEvent "main" "deep-link-received" url,
        Effect.focusWindow "main"]) ∧
    mapGet (route_deep_link env s url).1.pendingLink "main" = some url ∧
    List.countP isEmitEffect (route_deep_link env s url).2 = 1 ∧
    List.countP isScheduleEffect (route_deep_link env s url).2 = 0 ∧
    List.countP isFocusEffect (route_deep_link env s url).2 = 1 := by
  have h1 : route_deep_link env s url =
      ({ s with pendingLink := mapInsert s.pendingLink "main" url },
       [Effect.setPending "main" url,
        Effect.emitEvent "main" "deep-link-received" url,
        Effect.focusWindow "main"]) := by
    cases hex : extract_session_id url with
    | none =>
      simp [route_deep_link, hex, route_after_dedup, hidle, mapAnyValue, hmain]
    | some sid =>
      simp [route_deep_link, hex, hidle, mapGet, route_after_dedup,
        mapAnyValue, hmain]
  refine ⟨h1, ?_, ?_, ?_, ?_⟩ <;> rw [h1]
  · exact mapGet_insert_self s.pendingLink "main" url
  · rfl
  · rfl
  · rfl

/-- Witness for C2 (amended) at a concrete state, URL and environment. -/
theorem C2_idle_main_delivery_witness :
    (initState none).sessionMap = [] ∧
    envAllTrue.windowExists "main" = true ∧
    (route_deep_link envAllTrue (initState none) "breeze://c?session=abc" =
      ({ initState none with
          pendingLink :=
            mapInsert (initState none).pendingLink "main"
              "breeze://c?session=abc" },
       [Effect.setPending "main" "breeze://c?session=abc",
        Effect.emitEvent "main" "deep-link-received" "breeze://c?session=abc",
        Effect.focusWindow "main"]) ∧
     mapGet (route_deep_link envAllTrue (initState none)
        "breeze://c?session=abc").1.pendingLink "main" =
          some "breeze://c?session=abc" ∧
     List.countP isEmitEffect (route_deep_link envAllTrue (initState none)
        "breeze://c?session=abc").2 = 1 ∧
     List.countP isScheduleEffect (route_deep_link envAllTrue (initState none)
        "breeze://c?session=abc").2 = 0 ∧
     List.countP isFocusEffect (route_deep_link envAllTrue (initState none)
        "breeze://c?session=abc").2 = 1) :=
  ⟨rfl, rfl,
   C2_idle_main_delivery envAllTrue (initState none) "breeze://c?session=abc"
     rfl rfl⟩

/-- C3 (counterexample). The claimed "fresh, previously-unused label"
fails at the `u32` wrap: from a busy state whose counter is `u32::MAX`,
routing a new session's URL allocates the label `session-0`, which
coincides with `sessionLabel k` for `k = 0 ≤ counter` — i.e. with the
label space of every previously mintable label — because the increment
`*c += 1` wraps in release builds. -/
theorem C3_counterexample :
    ¬ (∀ lbl ∈ allocatedLabels
          (route_deep_link envAllTrue stWrapFull "breeze://c?session=d1").2,
        ∀ k, k ≤ stWrapFull.windowCounter → lbl ≠ sessionLabel k) := by
  intro h
  exact h "session-0" (by decide) 0 (by decide) (by decide)

/-- C3 (amended). For every URL whose session id is not yet owned,
delivered while the primary window owns a session, `route(url)` allocates
the label `session-((counter+1) mod 2^32)` — distinct from every label
minted for a smaller counter value provided the `u32` counter does not
wrap (`counter + 1 < 2^32`) — writes `PendingLink[label] = url` before
window creation is attempted and before any notification is emitted
(trace order), never mutates `PendingLink[main]`, and on successful
creation schedules the two delayed re-emissions for `(label, url)`. -/
theorem C3_busy_new_window (env : Env) (s : RouterState) (url sid : String)
    (hex : extract_session_id url = some sid)
    (hnew : mapGet s.sessionMap sid = none)
    (hbusy : mapAnyValue s.sessionMap "main" = true)
    (hbuild : env.buildSucceeds (sessionLabel ((s.windowCounter + 1) % u32Size)) = true) :
    route_deep_link env s url =
      ({ s with windowCounter := (s.windowCounter + 1) % u32Size,
                pendingLink := mapInsert s.pendingLink
                  (sessionLabel ((s.windowCounter + 1) % u32Size)) url },
       [Effect.setPending (sessionLabel ((s.windowCounter + 1) % u32Size)) url,
        Effect.attemptCreate (sessionLabel ((s.windowCounter + 1) % u32Size)),
        Effect.scheduleEmit (sessionLabel ((s.windowCounter + 1) % u32Size))
          "deep-link-received" url 500,
        Effect.scheduleEmit (sessionLabel ((s.windowCounter + 1) % u32Size))
          "deep-link-received" url 1500]) ∧
    mapGet (route_deep_link env s url).1.pendingLink
      (sessionLabel ((s.windowCounter + 1) % u32Size)) = some url ∧
    mapGet (route_deep_link env s url).1.pendingLink "main" =
      mapGet s.pendingLink "main" ∧
    (s.windowCounter + 1 < u32Size →
      ∀ k, k ≤ s.windowCounter →
        sessionLabel ((s.windowCounter + 1) % u32Size) ≠ sessionLabel k) := by
  have h1 : route_deep_link env s url =
      ({ s with windowCounter := (s.windowCounter + 1) % u32Size,
                pendingLink := mapInsert s.pendingLink
                  (sessionLabel ((s.windowCounter + 1) % u32Size)) url },
       [Effect.setPending (sessionLabel ((s.windowCounter + 1) % u32Size)) url,
        Effect.attemptCreate (sessionLabel ((s.windowCounter + 1) % u32Size)),
        Effect.scheduleEmit (sessionLabel ((s.windowCounter + 1) % u32Size))
          "deep-link-received" url 500,
        Effect.scheduleEmit (sessionLabel ((s.windowCounter + 1) % u32Size))
          "deep-link-received" url 1500]) := by
    simp [route_deep_link, hex, hnew, route_after_dedup, hbusy,
      create_session_window, hbuild]
  refine ⟨h1, ?_, ?_, ?_⟩
  · rw [h1]
    exact mapGet_insert_self s.pendingLink _ url
  · rw [h1]
    exact mapGet_insert_ne s.pendingLink _ url "main"
      (fun he => sessionLabel_ne_main ((s.windowCounter + 1) % u32Size) he.symm)
  · intro hlt k hk he
    have h2 := sessionLabel_injective he
    rw [Nat.mod_eq_of_lt hlt] at h2
    omega

/-- Witness for C3 at a concrete busy state, URL and environment. -/
theorem C3_busy_new_window_witness :
    extract_session_id "breeze://c?session=def" = some "def" ∧
    mapGet stBusyWit.sessionMap "def" = none ∧
    mapAnyValue stBusyWit.sessionMap "main" = true ∧
    envAllTrue.buildSucceeds (sessionLabel ((stBusyWit.windowCounter + 1) % u32Size)) =
      true ∧
    (route_deep_link envAllTrue stBusyWit "breeze://c?session=def" =
      ({ stBusyWit with
          windowCounter := (stBusyWit.windowCounter + 1) % u32Size,
          pendingLink := mapInsert stBusyWit.pendingLink
            (sessionLabel ((stBusyWit.windowCounter + 1) % u32Size))
            "breeze://c?session=def" },
       [Effect.setPending (sessionLabel ((stBusyWit.windowCounter + 1) % u32Size))
          "breeze://c?session=def",
        Effect.attemptCreate (sessionLabel ((stBusyWit.windowCounter + 1) % u32Size)),
        Effect.scheduleEmit (sessionLabel ((stBusyWit.windowCounter + 1) % u32Size))
          "deep-link-received" "breeze://c?session=def" 500,
        Effect.scheduleEmit (sessionLabel ((stBusyWit.windowCounter + 1) % u32Size))
          "deep-link-received" "breeze://c?session=def" 1500]) ∧
     mapGet (route_deep_link envAllTrue stBusyWit
        "breeze://c?session=def").1.pendingLink
          (sessionLabel ((stBusyWit.windowCounter + 1) % u32Size)) =
            some "breeze://c?session=def" ∧
     mapGet (route_deep_link envAllTrue stBusyWit
        "breeze://c?session=def").1.pendingLink "main" =
          mapGet stBusyWit.pendingLink "main" ∧
     (stBusyWit.windowCounter + 1 < u32Size →
       ∀ k, k ≤ stBusyWit.windowCounter →
         sessionLabel ((stBusyWit.windowCounter + 1) % u32Size) ≠
           sessionLabel k)) :=
  ⟨by decide, by decide, by decide, rfl,
   C3_busy_new_window envAllTrue stBusyWit "breeze://c?session=def" "def"
     (by decide) (by decide) (by decide) rfl⟩

/-- C4 (counterexample). At a concrete busy state where window creation
fails, the fallback removes the orphaned entry, stores and emits the URL
for the primary window, but performs no focus action: the claim that the
fallback focuses the primary window (as the idle branch does) is false on
the code. -/
theorem C4_counterexample :
    ¬ (mapGet (route_deep_link envBuildFails stBusyWit
          "breeze://c?session=def").1.pendingLink (sessionLabel 1) = none ∧
       mapGet (route_deep_link envBuildFails stBusyWit
          "breeze://c?session=def").1.pendingLink "main" =
            some "breeze://c?session=def" ∧
       List.countP isEmitEffect (route_deep_link envBuildFails stBusyWit
          "breeze://c?session=def").2 = 1 ∧
       Effect.focusWindow "main" ∈ (route_deep_link envBuildFails stBusyWit
          "breeze://c?session=def").2) := by
  decide

/-- C4 (amended). If new-window creation fails, the router removes the
orphaned `PendingLink[label]` entry, writes `PendingLink[main] = url` and
emits the notification to the primary window (but performs no focus
action, unlike the idle branch); the routing function totalizes — no
failure aborts the run. -/
theorem C4_create_failure_fallback (env : Env) (s : RouterState)
    (url sid : String)
    (hex : extract_session_id url = some sid)
    (hnew : mapGet s.sessionMap sid = none)
    (hbusy : mapAnyValue s.sessionMap "main" = true)
    (hfail : env.buildSucceeds (sessionLabel ((s.windowCounter + 1) % u32Size)) = false) :
    route_deep_link env s url =
      ({ s with windowCounter := (s.windowCounter + 1) % u32Size,
                pendingLink := mapInsert
                  (mapRemove
                    (mapInsert s.pendingLink
                      (sessionLabel ((s.windowCounter + 1) % u32Size)) url)
                    (sessionLabel ((s.windowCounter + 1) % u32Size)))
                  "main" url },
       [Effect.setPending (sessionLabel ((s.windowCounter + 1) % u32Size)) url,
        Effect.attemptCreate (sessionLabel ((s.windowCounter + 1) % u32Size)),
        Effect.removePending (sessionLabel ((s.windowCounter + 1) % u32Size)),
        Effect.setPending "main" url,
        Effect.emitEvent "main" "deep-link-received" url]) ∧
    mapGet (route_deep_link env s url).1.pendingLink
      (sessionLabel ((s.windowCounter + 1) % u32Size)) = none ∧
    mapGet (route_deep_link env s url).1.pendingLink "main" = some url ∧
    List.countP isFocusEffect (route_deep_link env s url).2 = 0 := by
  have h1 : route_deep_link env s url =
      ({ s with windowCounter := (s.windowCounter + 1) % u32Size,
                pendingLink := mapInsert
                  (mapRemove
                    (mapInsert s.pendingLink
                      (sessionLabel ((s.windowCounter + 1) % u32Size)) url)
                    (sessionLabel ((s.windowCounter + 1) % u32Size)))
                  "main" url },
       [Effect.setPending (sessionLabel ((s.windowCounter + 1) % u32Size)) url,
        Effect.attemptCreate (sessionLabel ((s.windowCounter + 1) % u32Size)),
        Effect.removePending (sessionLabel ((s.windowCounter + 1) % u32Size)),
        Effect.setPending "main" url,
        Effect.emitEvent "main" "deep-link-received" url]) := by
    simp [route_deep_link, hex, hnew, route_after_dedup, hbusy,
      create_session_window, hfail]
  refine ⟨h1, ?_, ?_, ?_⟩
  · rw [h1]
    have h2 := mapGet_insert_ne
      (mapRemove
        (mapInsert s.pendingLink (sessionLabel ((s.windowCounter + 1) % u32Size)) url)
        (sessionLabel ((s.windowCounter + 1) % u32Size)))
      "main" url (sessionLabel ((s.windowCounter + 1) % u32Size))
      (sessionLabel_ne_main ((s.windowCounter + 1) % u32Size))
    rw [h2]
    exact mapGet_remove_self _ _
  · rw [h1]
    exact mapGet_insert_self _ "main" url
  · rw [h1]
    rfl

/-- Witness for C4 (amended) at a concrete busy state and failing build. -/
theorem C4_create_failure_fallback_witness :
    extract_session_id "breeze://c?session=def" = some "def" ∧
    mapGet stBusyWit.sessionMap "def" = none ∧
    mapAnyValue stBusyWit.sessionMap "main" = true ∧
    envBuildFails.buildSucceeds (sessionLabel ((stBusyWit.windowCounter + 1) % u32Size)) =
      false ∧
    (route_deep_link envBuildFails stBusyWit "breeze://c?session=def" =
      ({ stBusyWit with
          windowCounter := (stBusyWit.windowCounter + 1) % u32Size,
          pendingLink := mapInsert
            (mapRemove
              (mapInsert stBusyWit.pendingLink
                (sessionLabel ((stBusyWit.windowCounter + 1) % u32Size))
                "breeze://c?session=def")
              (sessionLabel ((stBusyWit.windowCounter + 1) % u32Size)))
            "main" "breeze://c?session=def" },
       [Effect.setPending (sessionLabel ((stBusyWit.windowCounter + 1) % u32Size))
          "breeze://c?session=def",
        Effect.attemptCreate (sessionLabel ((stBusyWit.windowCounter + 1) % u32Size)),
        Effect.removePending (sessionLabel ((stBusyWit.windowCounter + 1) % u32Size)),
        Effect.setPending "main" "breeze://c?session=def",
        Effect.emitEvent "main" "deep-link-received"
          "breeze://c?session=def"]) ∧
     mapGet (route_deep_link envBuildFails stBusyWit
        "breeze://c?session=def").1.pendingLink
          (sessionLabel ((stBusyWit.windowCounter + 1) % u32Size)) = none ∧
     mapGet (route_deep_link envBuildFails stBusyWit
        "breeze://c?session=def").1.pendingLink "main" =
          some "breeze://c?session=def" ∧
     List.countP isFocusEffect (route_deep_link envBuildFails stBusyWit
        "breeze://c?session=def").2 = 0) :=
  ⟨by decide, by decide, by decide, rfl,
   C4_create_failure_fallback envBuildFails stBusyWit
     "breeze://c?session=def" "def" (by decide) (by decide) (by decide) rfl⟩

/-- C5 (counterexample). At a concrete state whose session map points the
URL's session id at a label with no live window, `route(url)` returns
without delivering: it neither stores a pending link for the primary
window nor attempts window creation, refuting the claim that routing
proceeds past the dedup step. -/
theorem C5_counterexample :
    ¬ (mapGet (route_deep_link envNoWindows stFocusWit
          "breeze://c?session=abc").1.pendingLink "main" =
            some "breeze://c?session=abc" ∨
       List.countP isCreateEffect (route_deep_link envNoWindows stFocusWit
          "breeze://c?session=abc").2 = 1) := by
  decide

/-- C5 (amended). For every URL whose session id is mapped in
`SessionOwnership` to a label whose window no longer exists, `route(url)`
returns at the dedup step without delivering the link: no state change
and no effect at all (the `return` in the dedup branch fires whether or
not the owning window still exists). -/
theorem C5_stale_owner_returns (env : Env) (s : RouterState)
    (url sid lbl : String)
    (hex : extract_session_id url = some sid)
    (hown : mapGet s.sessionMap sid = some lbl)
    (hgone : env.windowExists lbl = false) :
    route_deep_link env s url = (s, []) := by
  simp [route_deep_link, hex, hown, hgone]

/-- Witness for C5 (amended) at a concrete state with a dead owner. -/
theorem C5_stale_owner_returns_witness :
    extract_session_id "breeze://c?session=abc" = some "abc" ∧
    mapGet stFocusWit.sessionMap "abc" = some "session-1" ∧
    envNoWindows.windowExists "session-1" = false ∧
    route_deep_link envNoWindows stFocusWit "breeze://c?session=abc" =
      (stFocusWit, []) :=
  ⟨by decide, by decide, rfl,
   C5_stale_owner_returns envNoWindows stFocusWit "breeze://c?session=abc"
     "abc" "session-1" (by decide) (by decide) rfl⟩

/-- C6. After the window-destroyed signal for any label L is processed, no
entry in `SessionOwnership` has value L and `PendingLink[L]` is absent,
regardless of how many sessions L previously owned; entries for other
labels are unchanged. Holds for every label, including the primary. -/
theorem C6_destroy_cleanup (s : RouterState) (lbl : String)
    (hN : (s.sessionMap.map Prod.fst).Nodup) :
    (∀ sid, mapGet (on_window_destroyed s lbl).sessionMap sid ≠ some lbl) ∧
    mapGet (on_window_destroyed s lbl).pendingLink lbl = none ∧
    (∀ k, k ≠ lbl →
      mapGet (on_window_destroyed s lbl).pendingLink k =
        mapGet s.pendingLink k) ∧
    (∀ sid v, v ≠ lbl →
      (mapGet (on_window_destroyed s lbl).sessionMap sid = some v ↔
        mapGet s.sessionMap sid = some v)) := by
  refine ⟨?_, ?_, ?_, ?_⟩
  · intro sid
    exact mapGet_retainValNe_ne s.sessionMap lbl sid
  · exact mapGet_remove_self s.pendingLink lbl
  · intro k hk
    exact mapGet_remove_ne s.pendingLink lbl k hk
  · intro sid v hv
    exact mapGet_retainValNe_iff s.sessionMap lbl sid v hv hN

/-- Witness for C6 at a concrete two-session state, destroying `w1`. -/
theorem C6_destroy_cleanup_witness :
    (stC6Wit.sessionMap.map Prod.fst).Nodup ∧
    ((∀ sid, mapGet (on_window_destroyed stC6Wit "w1").sessionMap sid ≠
        some "w1") ∧
     mapGet (on_window_destroyed stC6Wit "w1").pendingLink "w1" = none ∧
     (∀ k, k ≠ "w1" →
       mapGet (on_window_destroyed stC6Wit "w1").pendingLink k =
         mapGet stC6Wit.pendingLink k) ∧
     (∀ sid v, v ≠ "w1" →
       (mapGet (on_window_destroyed stC6Wit "w1").sessionMap sid = some v ↔
         mapGet stC6Wit.sessionMap sid = some v))) :=
  ⟨by decide, C6_destroy_cleanup stC6Wit "w1" (by decide)⟩

/-- C7. `extract_session_id` satisfies the specified contract exactly:
`None` iff the URL has no `?`, no `&`-delimited pair of the query carries
the `session=` key, or the (first) session value is empty; otherwise
`Some` of the raw, non-URL-decoded value running to the next `&` or the
end of the string. -/
theorem C7_extract_session_id_contract (url : String) :
    extract_session_id url = extract_session_id_spec url := by
  unfold extract_session_id extract_session_id_spec
  by_cases h : url.toList.contains '?'
  · rw [if_pos h, if_pos h, scanPairs_eq_find]
  · rw [if_neg h, if_neg h]

lemma create_sessionMap_eq (env : Env) (s : RouterState) (url : String) :
    (create_session_window env s url).1.sessionMap = s.sessionMap := by
  unfold create_session_window
  by_cases h : env.buildSucceeds (sessionLabel ((s.windowCounter + 1) % u32Size)) <;>
    simp [h]

lemma rad_sessionMap_eq (env : Env) (s : RouterState) (url : String) :
    (route_after_dedup env s url).1.sessionMap = s.sessionMap := by
  unfold route_after_dedup
  by_cases h : mapAnyValue s.sessionMap "main" <;>
    simp [h, create_sessionMap_eq]

lemma route_sessionMap_eq (env : Env) (s : RouterState) (url : String) :
    (route_deep_link env s url).1.sessionMap = s.sessionMap := by
  cases hex : extract_session_id url with
  | none =>
    have h : route_deep_link env s url = route_after_dedup env s url := by
      simp [route_deep_link, hex]
    rw [h]
    exact rad_sessionMap_eq env s url
  | some sid =>
    cases hg : mapGet s.sessionMap sid with
    | none =>
      have h : route_deep_link env s url = route_after_dedup env s url := by
        simp [route_deep_link, hex, hg]
      rw [h]
      exact rad_sessionMap_eq env s url
    | some lbl =>
      have h : route_deep_link env s url =
          (s, if env.windowExists lbl then [Effect.focusWindow lbl]
              else []) := by
        simp [route_deep_link, hex, hg]
      rw [h]

lemma applyOp_sessionKeys (s : RouterState) (op : Op)
    (h : (s.sessionMap.map Prod.fst).Nodup) :
    ((applyOp s op).sessionMap.map Prod.fst).Nodup := by
  cases op with
  | routeLink env url =>
    have heq := route_sessionMap_eq env s url
    show ((route_deep_link env s url).1.sessionMap.map Prod.fst).Nodup
    rw [heq]
    exact h
  | registerSession lbl sid => exact keysNodup_insert s.sessionMap sid lbl h
  | unregisterSession lbl => exact keysNodup_filter s.sessionMap _ h
  | getPending lbl => exact h
  | clearPending lbl => exact h
  | windowDestroyed lbl => exact keysNodup_filter s.sessionMap _ h

lemma runOps_sessionKeys (ops : List Op) : ∀ s : RouterState,
    (s.sessionMap.map Prod.fst).Nodup →
    ((runOps s ops).sessionMap.map Prod.fst).Nodup := by
  induction ops with
  | nil => intro s h; exact h
  | cons op ops ih =>
    intro s h
    exact ih (applyOp s op) (applyOp_sessionKeys s op h)

lemma allocatedLabels_append (a b : List Effect) :
    allocatedLabels (a ++ b) = allocatedLabels a ++ allocatedLabels b := by
  simp [allocatedLabels, List.filterMap_append]

lemma create_alloc (env : Env) (s : RouterState) (url : String) :
    allocatedLabels (create_session_window env s url).2 =
      [sessionLabel ((s.windowCounter + 1) % u32Size)] ∧
    (create_session_window env s url).1.windowCounter =
      (s.windowCounter + 1) % u32Size := by
  unfold create_session_window
  by_cases h : env.buildSucceeds (sessionLabel ((s.windowCounter + 1) % u32Size)) <;>
    simp [h, allocatedLabels]

lemma rad_alloc (env : Env) (s : RouterState) (url : String) :
    (allocatedLabels (route_after_dedup env s url).2 = [] ∧
      (route_after_dedup env s url).1.windowCounter = s.windowCounter) ∨
    (allocatedLabels (route_after_dedup env s url).2 =
        [sessionLabel ((s.windowCounter + 1) % u32Size)] ∧
      (route_after_dedup env s url).1.windowCounter =
        (s.windowCounter + 1) % u32Size) := by
  unfold route_after_dedup
  by_cases h : mapAnyValue s.sessionMap "main"
  · right
    simp only [h, Bool.not_true, Bool.false_eq_true, if_false]
    exact create_alloc env s url
  · left
    by_cases hw : env.windowExists "main" <;> simp [h, hw, allocatedLabels]

lemma route_alloc (env : Env) (s : RouterState) (url : String) :
    (allocatedLabels (route_deep_link env s url).2 = [] ∧
      (route_deep_link env s url).1.windowCounter = s.windowCounter) ∨
    (allocatedLabels (route_deep_link env s url).2 =
        [sessionLabel ((s.windowCounter + 1) % u32Size)] ∧
      (route_deep_link env s url).1.windowCounter =
        (s.windowCounter + 1) % u32Size) := by
  cases hex : extract_session_id url with
  | none =>
    have h : route_deep_link env s url = route_after_dedup env s url := by
      simp [route_deep_link, hex]
    rw [h]
    exact rad_alloc env s url
  | some sid =>
    cases hg : mapGet s.sessionMap sid with
    | none =>
      have h : route_deep_link env s url = route_after_dedup env s url := by
        simp [route_deep_link, hex, hg]
      rw [h]
      exact rad_alloc env s url
    | some lbl =>
      have h : route_deep_link env s url =
          (s, if env.windowExists lbl then [Effect.focusWindow lbl]
              else []) := by
        simp [route_deep_link, hex, hg]
      rw [h]
      left
      by_cases hw : env.windowExists lbl <;> simp [hw, allocatedLabels]

lemma applyOpFx_alloc (s : RouterState) (op : Op) :
    (allocatedLabels (applyOpFx s op).2 = [] ∧
      (applyOp s op).windowCounter = s.windowCounter) ∨
    (allocatedLabels (applyOpFx s op).2 =
        [sessionLabel ((s.windowCounter + 1) % u32Size)] ∧
      (applyOp s op).windowCounter = (s.windowCounter + 1) % u32Size) := by
  cases op with
  | routeLink env url => exact route_alloc env s url
  | registerSession lbl sid => exact Or.inl ⟨rfl, rfl⟩
  | unregisterSession lbl => exact Or.inl ⟨rfl, rfl⟩
  | getPending lbl => exact Or.inl ⟨rfl, rfl⟩
  | clearPending lbl => exact Or.inl ⟨rfl, rfl⟩
  | windowDestroyed lbl => exact Or.inl ⟨rfl, rfl⟩

lemma runFx_alloc (ops : List Op) : ∀ s : RouterState,
    s.windowCounter + (allocatedLabels (runFx s ops)).length < u32Size →
    (runOps s ops).windowCounter =
      s.windowCounter + (allocatedLabels (runFx s ops)).length ∧
    ∃ ns : List Nat,
      allocatedLabels (runFx s ops) = ns.map sessionLabel ∧
      List.Pairwise (fun a b => a < b) ns ∧
      (∀ n ∈ ns,
        s.windowCounter < n ∧ n ≤ (runOps s ops).windowCounter) := by
  induction ops with
  | nil =>
    intro s _
    exact ⟨rfl, [], rfl, List.Pairwise.nil, by simp⟩
  | cons op ops ih =>
    intro s hbound
    have hrun : runOps s (op :: ops) = runOps (applyOp s op) ops := rfl
    have hsplit : allocatedLabels (runFx s (op :: ops)) =
        allocatedLabels (applyOpFx s op).2 ++
          allocatedLabels (runFx (applyOp s op) ops) := by
      rw [show runFx s (op :: ops) =
        (applyOpFx s op).2 ++ runFx (applyOp s op) ops from rfl,
        allocatedLabels_append]
    rcases applyOpFx_alloc s op with ⟨ha, hc⟩ | ⟨ha, hc⟩
    · rw [hsplit, ha, List.nil_append] at hbound ⊢
      rw [hrun]
      have hbound2 : (applyOp s op).windowCounter +
          (allocatedLabels (runFx (applyOp s op) ops)).length < u32Size := by
        omega
      obtain ⟨hcnt, ns, hmap, hpw, hbd⟩ := ih (applyOp s op) hbound2
      refine ⟨by omega, ns, hmap, hpw, ?_⟩
      intro n hn
      have h2 := hbd n hn
      exact ⟨by omega, h2.2⟩
    · have hlen : (allocatedLabels (runFx s (op :: ops))).length =
          1 + (allocatedLabels (runFx (applyOp s op) ops)).length := by
        rw [hsplit, ha]
        simp only [List.length_append, List.length_cons, List.length_nil]
      have hc1 : s.windowCounter + 1 < u32Size := by
        rw [hlen] at hbound
        omega
      have hmod : (s.windowCounter + 1) % u32Size = s.windowCounter + 1 :=
        Nat.mod_eq_of_lt hc1
      rw [hmod] at ha hc
      have hbound2 : (applyOp s op).windowCounter +
          (allocatedLabels (runFx (applyOp s op) ops)).length < u32Size := by
        rw [hc]
        rw [hlen] at hbound
        omega
      obtain ⟨hcnt, ns, hmap, hpw, hbd⟩ := ih (applyOp s op) hbound2
      rw [hrun]
      refine ⟨?_, (s.windowCounter + 1) :: ns, ?_, ?_, ?_⟩
      · rw [hcnt, hc, hlen]
        omega
      · rw [hsplit, ha, hmap]
        rfl
      · refine List.Pairwise.cons ?_ hpw
        intro n hn
        have h2 := (hbd n hn).1
        omega
      · intro n hn
        rcases List.mem_cons.mp hn with rfl | hn2
        · refine ⟨by omega, ?_⟩
          rw [hcnt, hc]
          omega
        · have h2 := hbd n hn2
          exact ⟨by omega, h2.2⟩

/-- C9 (counterexample). The window counter is a `u32` that wraps: from a
busy state whose counter is `u32::MAX - 1`, two deep-link deliveries for
new sessions allocate the labels `session-4294967295` and then
`session-0` — the second allocation's N is smaller than the first's, and
the counter has decreased, refuting lifetime monotonicity and the
strictly-greater-than-every-previous-N property. -/
theorem C9_counterexample :
    allocatedLabels (runFx stWrapWit wrapOps) =
      ["session-4294967295", "session-0"] ∧
    ¬ stWrapWit.windowCounter ≤ (runOps stWrapWit wrapOps).windowCounter := by
  decide

/-- C9 (amended). The counter is incremented modulo `2^32`. Along any run
in which the initial counter plus the number of allocations stays below
`2^32` — in particular any process lifetime with fewer than `2^32` window
creations — the counter is monotone, the allocated labels are `session-N`
for a strictly increasing sequence of `N`s all above the initial counter,
no allocated label repeats, and none is the primary label `main`, even
when the run contains window destructions and failed creations. -/
theorem C9_counter_monotone_fresh_labels (s0 : RouterState) (ops : List Op)
    (hbound : s0.windowCounter +
      (allocatedLabels (runFx s0 ops)).length < u32Size) :
    s0.windowCounter ≤ (runOps s0 ops).windowCounter ∧
    ∃ ns : List Nat,
      allocatedLabels (runFx s0 ops) = ns.map sessionLabel ∧
      List.Pairwise (fun a b => a < b) ns ∧
      (∀ n ∈ ns, s0.windowCounter < n) ∧
      (allocatedLabels (runFx s0 ops)).Nodup ∧
      "main" ∉ allocatedLabels (runFx s0 ops) := by
  obtain ⟨hcnt, ns, hmap, hpw, hbd⟩ := runFx_alloc ops s0 hbound
  have hnd : ns.Nodup := List.Pairwise.imp (fun h => Nat.ne_of_lt h) hpw
  refine ⟨by omega, ns, hmap, hpw, fun n hn => (hbd n hn).1, ?_, ?_⟩
  · rw [hmap]
    exact List.Nodup.map sessionLabel_injective hnd
  · rw [hmap]
    intro hmem
    obtain ⟨n, _, hlab⟩ := List.mem_map.mp hmem
    exact sessionLabel_ne_main n hlab

/-- Witness for C9 (amended): one registration and one allocating delivery
from the initial state, well inside the `u32` range. -/
theorem C9_counter_monotone_fresh_labels_witness :
    ((initState none).windowCounter +
      (allocatedLabels (runFx (initState none) c9WitOps)).length < u32Size) ∧
    ((initState none).windowCounter ≤
      (runOps (initState none) c9WitOps).windowCounter ∧
    ∃ ns : List Nat,
      allocatedLabels (runFx (initState none) c9WitOps) =
        ns.map sessionLabel ∧
      List.Pairwise (fun a b => a < b) ns ∧
      (∀ n ∈ ns, (initState none).windowCounter < n) ∧
      (allocatedLabels (runFx (initState none) c9WitOps)).Nodup ∧
      "main" ∉ allocatedLabels (runFx (initState none) c9WitOps)) :=
  ⟨by decide,
   C9_counter_monotone_fresh_labels (initState none) c9WitOps (by decide)⟩

/-- C10 (counterexample). The state reached from the initial state by
registering two different sessions for the `main` window has the label
`main` twice among the values of `SessionOwnership`: the at-most-one-
session-per-label half of the claim fails on a reachable state. -/
theorem C10_counterexample :
    ¬ (((runOps (initState none)
          [Op.registerSession "main" "s1",
           Op.registerSession "main" "s2"]).sessionMap.map
            Prod.snd).count "main" ≤ 1) := by
  decide

/-- C10 (amended). In every state reachable through the public operations,
each session identifier appears at most once as a key of
`SessionOwnership`; a window label, however, may own several sessions
simultaneously (the spec's "except transiently" caveat). -/
theorem C10_session_key_unique (u : Option String) (ops : List Op)
    (k : String) :
    ((runOps (initState u) ops).sessionMap.map Prod.fst).count k ≤ 1 := by
  have h0 : ((initState u).sessionMap.map Prod.fst).Nodup := by
    cases u <;> exact List.nodup_nil
  have h := runOps_sessionKeys ops (initState u) h0
  exact List.nodup_iff_count_le_one.mp h k

/-- C8. `get_pending_link(label)` mutates no state: the returned state is
the argument state, and a second call straight after returns the same
value. -/
theorem C8_get_pending_link_pure (s : RouterState) (lbl : String) :
    (get_pending_deep_link s lbl).1 = s ∧
    (get_pending_deep_link (get_pending_deep_link s lbl).1 lbl).2 =
      (get_pending_deep_link s lbl).2 :=
  ⟨rfl, rfl⟩

end Breeze

section Scratch
open Breeze

example : extract_session_id "breeze://connect?session=abc" = some "abc" := by
  decide

example : extract_session_id "breeze://connect" = none := by decide

example : extract_session_id "breeze://c?x=1&session=abc&y=2" = some "abc" := by
  decide

example : extract_session_id "breeze://c?session=" = none := by decide

example : extract_session_id "breeze://c?" = none := by decide

example : extract_session_id "breeze://c?session=&session=zz" = none := by
  decide

example : sessionLabel 1 = "session-1" := by decide

end Scratch
